import Mathlib

set_option maxHeartbeats 1000000
set_option maxRecDepth 4000

namespace NES

/-- The stack page is hard-wired to page 1 (cpu.rs `const STACK_PAGE: u8 = 0x01`). -/
def STACK_PAGE : Nat := 0x01

/-- Reset vector location (cpu.rs `pub const RESET_VECTOR: u16 = 0xfffc`). -/
def RESET_VECTOR : Nat := 0xfffc

/-- IRQ vector location (cpu.rs `pub const IRQ_VECTOR: u16 = 0xfffe`). -/
def IRQ_VECTOR : Nat := 0xfffe

/-- Flag bit masks from cpu.rs (`N_FLAG` .. `C_FLAG`). -/
def N_FLAG : Nat := 0b10000000

/-- Overflow flag mask. -/
def V_FLAG : Nat := 0b01000000

/-- Break flag mask. -/
def B_FLAG : Nat := 0b00010000

/-- Decimal flag mask. -/
def D_FLAG : Nat := 0b00001000

/-- Interrupt-disable flag mask. -/
def I_FLAG : Nat := 0b00000100

/-- Zero flag mask. -/
def Z_FLAG : Nat := 0b00000010

/-- Carry flag mask. -/
def C_FLAG : Nat := 0b00000001

/-- The `Flag` enum of cpu.rs. -/
inductive Flag where
  | Negative
  | Overflow
  | B
  | Decimal
  | Interrupt
  | Zero
  | Carry
deriving DecidableEq

/-- Embeds cpu.rs `get_flag_constant`: the Rust function linearly searches the
`flags` array for `f` and returns the entry of `constants` at the same index;
since the two arrays are listed in the same order, this is exactly the map below. -/
def get_flag_constant : Flag → Nat
  | .Negative => N_FLAG
  | .Overflow => V_FLAG
  | .B => B_FLAG
  | .Decimal => D_FLAG
  | .Interrupt => I_FLAG
  | .Zero => Z_FLAG
  | .Carry => C_FLAG

/-- The bit index of each flag (so that `get_flag_constant f = 2 ^ f.bit`). -/
def Flag.bit : Flag → Nat
  | .Negative => 7
  | .Overflow => 6
  | .B => 4
  | .Decimal => 3
  | .Interrupt => 2
  | .Zero => 1
  | .Carry => 0

/-- The CPU state struct of cpu.rs.  Machine integers are embedded as `Nat`:
`status`, `sp`, `a`, `x`, `y` play the role of `u8` values, `pc` of a `u16`,
and `memory` of the `[u8; 65536]` array.  Every point where the Rust code's
integer types wrap (`overflowing_add`/`overflowing_sub`, `as u8`, `as u16`,
shifts on `u8`) carries an explicit `% 256` / `% 65536` in the operations below. -/
structure CPU where
  cycles : Nat
  running : Bool
  status : Nat
  pc : Nat
  sp : Nat
  a : Nat
  x : Nat
  y : Nat
  memory : Nat → Nat

/-- The `Default` impl for `CPU` in cpu.rs: everything zeroed, not running. -/
def CPU.default : CPU :=
  { cycles := 0, running := false, status := 0, pc := 0, sp := 0,
    a := 0, x := 0, y := 0, memory := fun _ => 0 }

/-- Models the read `self.memory[address as usize]` of cpu.rs: in Rust the index
is a `u16` and the cell a `u8`, so on the `Nat` embedding we reduce the address
mod 65536 and the stored byte mod 256 (the identity on every Rust-representable
state). -/
def CPU.readMem (s : CPU) (address : Nat) : Nat :=
  s.memory (address % 65536) % 256

/-- Models the write `self.memory[address as usize] = value` of cpu.rs. -/
def CPU.writeMem (s : CPU) (address value : Nat) : CPU :=
  { s with memory := fun i => if i = address % 65536 then value % 256 else s.memory i }

/-- cpu.rs `set_flag`: `self.status = (self.status & !flag_constant) | if v { flag_constant } else { 0 }`
(`!` is the `u8` complement, i.e. xor with 255). -/
def CPU.set_flag (s : CPU) (f : Flag) (v : Bool) : CPU :=
  { s with status := (s.status &&& (255 ^^^ get_flag_constant f)) |||
                     (if v then get_flag_constant f else 0) }

/-- cpu.rs `is_set`: `(self.status & flag_constant) != 0`. -/
def CPU.is_set (s : CPU) (f : Flag) : Bool :=
  s.status &&& get_flag_constant f != 0

/-- cpu.rs `update_status`: sets Zero/Negative from `value`.  Note the source
clears Negative only in the `value == 0` branch; for `0 < value <= 127` the
Negative flag is left untouched. -/
def CPU.update_status (s : CPU) (value : Nat) : CPU :=
  if value = 0 then
    (s.set_flag .Zero true).set_flag .Negative false
  else
    let s := s.set_flag .Zero false
    if value > 127 then s.set_flag .Negative true else s

/-- The `AddressingMode` enum of cpu/instruction.rs. -/
inductive AddressingMode where
  | Immediate
  | Zero
  | ZeroX
  | ZeroY
  | Absolute
  | AbsoluteX
  | AbsoluteY
  | Indirect
  | IndirectX
  | IndirectY
  | Implied
  | Relative
  | Accumulator
deriving DecidableEq

/-- cpu.rs `read_zp_address`: zero-page operand plus optional index register,
with the `u8` wrap of `overflowing_add`; advances the pc by one. -/
def CPU.read_zp_address (s : CPU) (mode : AddressingMode) : CPU × Nat :=
  let address := (s.readMem s.pc +
    (if mode = .ZeroX then s.x else if mode = .ZeroY then s.y else 0)) % 256
  ({ s with pc := (s.pc + 1) % 65536 }, address)

/-- cpu.rs `read_absolute_address`: little-endian 16-bit word at the pc;
advances the pc by two.  (The Rust source uses unchecked `self.pc + 1` /
`self.pc += 2` here; this embedding uses the wrapping `% 65536` semantics,
which is what the rest of the source and the spec intend -- see the C5 claim.) -/
def CPU.read_absolute_address (s : CPU) : CPU × Nat :=
  let address := s.readMem s.pc ||| (s.readMem (s.pc + 1) <<< 8)
  ({ s with pc := (s.pc + 2) % 65536 }, address)

/-- cpu.rs `read_indirect_address`, exactly as written: it reads the pointer
bytes, fetches the low byte of the target from the pointer address, then
increments the pointer's HIGH byte (with `u8` wrap) and fetches the high byte
of the target from that address (keeping the pointer's low byte). -/
def CPU.read_indirect_address (s : CPU) : CPU × Nat :=
  let ptr_low := s.readMem s.pc
  let s := { s with pc := (s.pc + 1) % 65536 }
  let ptr_high := s.readMem s.pc
  let addr_low := s.readMem ((ptr_high <<< 8) ||| ptr_low)
  let ptr_high2 := (ptr_high + 1) % 256
  let addr_high := s.readMem ((ptr_high2 <<< 8) ||| ptr_low)
  let s := { s with pc := (s.pc + 1) % 65536 }
  (s, (addr_high <<< 8) ||| addr_low)

/-- cpu.rs `read_indirect_indexed_address` ("(zp),Y"): the `zp_address + 1`
read is a `u8` add (wraps at 255) and `address += self.y` is a `u16` add. -/
def CPU.read_indirect_indexed_address (s : CPU) : CPU × Nat :=
  let zp_address := s.readMem s.pc
  let address := s.readMem zp_address ||| (s.readMem ((zp_address + 1) % 256) <<< 8)
  let address := (address + s.y) % 65536
  ({ s with pc := (s.pc + 1) % 65536 }, address)

/-- cpu.rs `read_indexed_indirect_address` ("(zp,X)"): the operand plus X with
`u8` wrap gives the zero-page pointer, whose little-endian word is the address. -/
def CPU.read_indexed_indirect_address (s : CPU) : CPU × Nat :=
  let zp_address := (s.readMem s.pc + s.x) % 256
  let address := s.readMem zp_address ||| (s.readMem ((zp_address + 1) % 256) <<< 8)
  ({ s with pc := (s.pc + 1) % 65536 }, address)

/-- cpu.rs `read_address`: dispatches on the addressing mode; unknown modes
return 0 as in the source's final `else` branch. -/
def CPU.read_address (s : CPU) (mode : AddressingMode) : CPU × Nat :=
  if mode = .Zero ∨ mode = .ZeroX ∨ mode = .ZeroY then
    s.read_zp_address mode
  else if mode = .Absolute ∨ mode = .AbsoluteX ∨ mode = .AbsoluteY then
    let t := s.read_absolute_address
    (t.1, (t.2 +
      (if mode = .AbsoluteX then t.1.x else if mode = .AbsoluteY then t.1.y else 0)) % 65536)
  else if mode = .Indirect then
    s.read_indirect_address
  else if mode = .IndirectX then
    s.read_indexed_indirect_address
  else if mode = .IndirectY then
    s.read_indirect_indexed_address
  else
    (s, 0)

/-- cpu.rs `read_value`: fetches an operand byte according to the mode.  The
`offset` is computed up front exactly as in the source (it is only consumed by
the absolute-mode branch).  The final `else` of the source is
`panic!("Illegal addressing mode")`; it is unreachable for every opcode of the
instruction table, and is embedded as returning the state unchanged with 0. -/
def CPU.read_value (s : CPU) (mode : AddressingMode) : CPU × Nat :=
  let offset :=
    if mode = .AbsoluteX ∨ mode = .IndirectX ∨ mode = .ZeroX then s.x
    else if mode = .AbsoluteY ∨ mode = .IndirectY ∨ mode = .ZeroY then s.y
    else 0
  if mode = .Immediate then
    (({ s with pc := (s.pc + 1) % 65536 } : CPU), s.readMem s.pc)
  else if mode = .Zero ∨ mode = .ZeroX ∨ mode = .ZeroY then
    let t := s.read_zp_address mode
    (t.1, t.1.readMem t.2)
  else if mode = .Absolute ∨ mode = .AbsoluteX ∨ mode = .AbsoluteY then
    let t := s.read_absolute_address
    (t.1, t.1.readMem (t.2 + offset))
  else if mode = .IndirectX then
    let t := s.read_indexed_indirect_address
    (t.1, t.1.readMem t.2)
  else if mode = .IndirectY then
    let t := s.read_indirect_indexed_address
    (t.1, t.1.readMem t.2)
  else
    (s, 0)

/-- cpu.rs `store`: resolves the address for `mode` and writes `value` there. -/
def CPU.store (s : CPU) (value : Nat) (mode : AddressingMode) : CPU :=
  let t := s.read_address mode
  t.1.writeMem t.2 value

/-- cpu.rs `push`: write at `(STACK_PAGE << 8) | sp`, then decrement `sp` with
`overflowing_sub` (8-bit wrap). -/
def CPU.push (s : CPU) (value : Nat) : CPU :=
  let address := (STACK_PAGE <<< 8) ||| s.sp
  let s := s.writeMem address value
  { s with sp := (s.sp + 256 - 1) % 256 }

/-- cpu.rs `pop`: increment `sp` with `overflowing_add` (8-bit wrap), then read
at `(STACK_PAGE << 8) | sp`. -/
def CPU.pop (s : CPU) : CPU × Nat :=
  let s := { s with sp := (s.sp + 1) % 256 }
  (s, s.readMem ((STACK_PAGE <<< 8) ||| s.sp))

/-- cpu.rs `sbc`.  `minuend` is `a | 0x100` when Carry is set; the `u16`
subtraction `minuend - subtrahend` is embedded with the 16-bit wrap.  (The
source text of the Carry update, `if result <= 0xff`, is taken at face value.) -/
def CPU.sbc (s : CPU) (mode : AddressingMode) : CPU :=
  let minuend := s.a ||| (if s.is_set .Carry then 0x100 else 0)
  let subtrahend := (s.read_value mode).2
  let s := (s.read_value mode).1
  let s := s.set_flag .Overflow
    (if (minuend ^^^ subtrahend) &&& 0x80 ≠ 0 then true else false)
  let result := (minuend + 65536 - subtrahend) % 65536
  let s := s.set_flag .Carry (decide (result ≤ 0xff))
  let s := if s.is_set .Overflow then
      s.set_flag .Overflow (if result < 0x80 ∨ result ≥ 0x180 then false else true)
    else s
  let s := s.update_status (result % 256)
  { s with a := result % 256 }

/-- cpu.rs `adc`.  Overflow is first set from the operand sign bits (before the
addition), Carry from the 9-bit result, then Overflow is corrected using the
`0x80 <= result < 0x180` band; `update_status` sees `result as u8`. -/
def CPU.adc (s : CPU) (mode : AddressingMode) : CPU :=
  let addend := s.a
  let augend := (s.read_value mode).2
  let s := (s.read_value mode).1
  let s := s.set_flag .Overflow
    (if (addend ^^^ augend) &&& 0x80 ≠ 0 then false else true)
  let result := addend + augend + (if s.is_set .Carry then 1 else 0)
  let s := s.set_flag .Carry (decide (result > 0xff))
  let s := if s.is_set .Overflow then
      s.set_flag .Overflow (if result < 0x80 ∨ result ≥ 0x180 then false else true)
    else s
  let s := s.update_status (result % 256)
  { s with a := result &&& 0xff }

/-- cpu.rs `and`: bitwise AND into the accumulator, then `update_status`. -/
def CPU.and (s : CPU) (mode : AddressingMode) : CPU :=
  let operand := (s.read_value mode).2
  let s := (s.read_value mode).1
  let s := { s with a := s.a &&& operand }
  s.update_status s.a

/-- cpu.rs `shift_left`: memory-target ASL.  The outgoing bit 7 goes to Carry;
the `u8` left shift drops the top bit (`% 256`). -/
def CPU.shift_left (s : CPU) (address : Nat) : CPU :=
  let msb := s.readMem address &&& 0x80 != 0
  let s := s.writeMem address ((s.readMem address) <<< 1)
  let s := s.set_flag .Carry msb
  s.update_status (s.readMem address)

/-- cpu.rs `shift_right`: memory-target LSR, exactly as written.  Note the
source computes the variable it calls `lsb` with the mask `0x80` (bit 7),
not `0x01`. -/
def CPU.shift_right (s : CPU) (address : Nat) : CPU :=
  let lsb := s.readMem address &&& 0x80 != 0
  let s := s.writeMem address ((s.readMem address) >>> 1)
  let s := s.set_flag .Carry lsb
  s.update_status (s.readMem address)

/-- cpu.rs `rotate_left`: memory-target ROL. -/
def CPU.rotate_left (s : CPU) (address : Nat) : CPU :=
  let c := s.is_set .Carry
  let s := s.set_flag .Carry (s.readMem address &&& 0x80 != 0)
  let s := s.writeMem address ((s.readMem address) <<< 1)
  let s := s.writeMem address ((s.readMem address) ||| (if c then 1 else 0))
  s.update_status (s.readMem address)

/-- cpu.rs `rotate_right`: memory-target ROR. -/
def CPU.rotate_right (s : CPU) (address : Nat) : CPU :=
  let c := s.is_set .Carry
  let s := s.set_flag .Carry (s.readMem address &&& 1 != 0)
  let s := s.writeMem address ((s.readMem address) >>> 1)
  let s := s.writeMem address ((s.readMem address) ||| (if c then 0x80 else 0))
  s.update_status (s.readMem address)

/-- cpu.rs `branch`: the operand is a signed 8-bit offset; `pc` moves with the
wrapping add/sub used by the source (`overflowing_add`/`overflowing_sub`). -/
def CPU.branch (s : CPU) (condition : Bool) : CPU :=
  if condition then
    let offset := s.readMem s.pc
    let s := { s with pc := (s.pc + 1) % 65536 }
    if 128 ≤ offset then
      { s with pc := (s.pc + 65536 - (256 - offset)) % 65536 }
    else
      { s with pc := (s.pc + offset) % 65536 }
  else
    { s with pc := (s.pc + 1) % 65536 }

/-- cpu.rs `interrupt`: push pc high, pc low, status; set Interrupt-disable;
load pc from the IRQ vector. -/
def CPU.interrupt (s : CPU) : CPU :=
  let s := s.push ((s.pc >>> 8) &&& 0xFF)
  let s := s.push (s.pc &&& 0xFF)
  let s := s.push s.status
  let s := s.set_flag .Interrupt true
  let address := s.readMem IRQ_VECTOR ||| (s.readMem (IRQ_VECTOR + 1) <<< 8)
  { s with pc := address }

/-- cpu.rs `jsr`: fetch the target, push (pc - 1) high byte then low byte
(`overflowing_sub` wrap), jump. -/
def CPU.jsr (s : CPU) : CPU :=
  let new_address := (s.read_absolute_address).2
  let s := (s.read_absolute_address).1
  let return_address := (s.pc + 65536 - 1) % 65536
  let s := s.push ((return_address >>> 8) &&& 0xFF)
  let s := s.push (return_address &&& 0xFF)
  { s with pc := new_address }

/-- cpu.rs `ret`: for RTI pop status first; then pop low and high pc bytes,
add 1 for a subroutine return, and assign to pc (`u16` wrap on the `+ 1`). -/
def CPU.ret (s : CPU) (is_subroutine : Bool) : CPU :=
  let s := if is_subroutine then s else
    (let p := s.pop
     { p.1 with status := p.2 })
  let lsb := (s.pop).2
  let s := (s.pop).1
  let msb := (s.pop).2
  let s := (s.pop).1
  let address := (((msb <<< 8) ||| lsb) + (if is_subroutine then 1 else 0)) % 65536
  { s with pc := address }

/-- cpu.rs `compare`: Zero iff equal, Carry iff `left >= right`, Negative from
the sign of the LEFT operand. -/
def CPU.compare (s : CPU) (left right : Nat) : CPU :=
  let s := s.set_flag .Zero (left == right)
  let s := s.set_flag .Carry (decide (left ≥ right))
  s.set_flag .Negative (decide (left ≥ 0x80))

/-- The `Mnemonic` enum.  instruction.rs declares the 56 official mnemonics;
cpu.rs additionally matches on `Mnemonic::XAA` and `Mnemonic::LAX` in its
dispatch (the intentionally-unemulated undocumented opcodes), so those two
variants are included here.  No entry of the instruction table maps to them. -/
inductive Mnemonic where
  | ADC | AND | ASL | BIT | BPL | BMI | BVC | BVS | BCC | BCS | BNE | BEQ
  | BRK | CMP | CPX | CPY | DEC | EOR | CLC | SEC | CLI | SEI | CLV | CLD
  | SED | INC | JMP | JSR | LDA | LDX | LDY | LSR | NOP | ORA | TAX | TXA
  | DEX | INX | TAY | TYA | DEY | INY | ROL | ROR | RTI | RTS | SBC | STA
  | TXS | TSX | PHA | PLA | PHP | PLP | STX | STY | XAA | LAX
deriving DecidableEq

/-- The `Instruction` struct of instruction.rs. -/
structure Instruction where
  opcode : Nat
  mnemonic : Mnemonic
  mode : AddressingMode
  time : Nat

/-- The static opcode map `INSTRUCTIONS` of instruction.rs (a `phf_map`),
embedded as a partial function from the opcode byte; `none` models absence of
the key.  All 151 entries are transcribed verbatim. -/
def INSTRUCTIONS : Nat → Option Instruction
  | 0x69 => some ⟨0x69, .ADC, .Immediate, 2⟩
  | 0x65 => some ⟨0x65, .ADC, .Zero, 3⟩
  | 0x75 => some ⟨0x75, .ADC, .ZeroX, 4⟩
  | 0x6d => some ⟨0x6d, .ADC, .Absolute, 4⟩
  | 0x7d => some ⟨0x7d, .ADC, .AbsoluteX, 4⟩
  | 0x79 => some ⟨0x79, .ADC, .AbsoluteY, 4⟩
  | 0x61 => some ⟨0x61, .ADC, .IndirectX, 6⟩
  | 0x71 => some ⟨0x71, .ADC, .IndirectY, 5⟩
  | 0x29 => some ⟨0x29, .AND, .Immediate, 2⟩
  | 0x25 => some ⟨0x25, .AND, .Zero, 3⟩
  | 0x35 => some ⟨0x35, .AND, .ZeroX, 4⟩
  | 0x2d => some ⟨0x2d, .AND, .Absolute, 4⟩
  | 0x3d => some ⟨0x3d, .AND, .AbsoluteX, 4⟩
  | 0x39 => some ⟨0x39, .AND, .AbsoluteY, 4⟩
  | 0x21 => some ⟨0x21, .AND, .IndirectX, 6⟩
  | 0x31 => some ⟨0x31, .AND, .IndirectY, 5⟩
  | 0x0a => some ⟨0x0a, .ASL, .Accumulator, 2⟩
  | 0x06 => some ⟨0x06, .ASL, .Zero, 5⟩
  | 0x16 => some ⟨0x16, .ASL, .ZeroX, 6⟩
  | 0x0e => some ⟨0x0e, .ASL, .Absolute, 6⟩
  | 0x1e => some ⟨0x1e, .ASL, .AbsoluteX, 7⟩
  | 0x24 => some ⟨0x24, .BIT, .Zero, 3⟩
  | 0x2c => some ⟨0x2c, .BIT, .Absolute, 4⟩
  | 0x10 => some ⟨0x10, .BPL, .Relative, 3⟩
  | 0x30 => some ⟨0x30, .BMI, .Relative, 3⟩
  | 0x50 => some ⟨0x50, .BVC, .Relative, 3⟩
  | 0x70 => some ⟨0x70, .BVS, .Relative, 3⟩
  | 0x90 => some ⟨0x90, .BCC, .Relative, 3⟩
  | 0xb0 => some ⟨0xb0, .BCS, .Relative, 3⟩
  | 0xd0 => some ⟨0xd0, .BNE, .Relative, 3⟩
  | 0xf0 => some ⟨0xf0, .BEQ, .Relative, 3⟩
  | 0x00 => some ⟨0x00, .BRK, .Implied, 7⟩
  | 0xc9 => some ⟨0xc9, .CMP, .Immediate, 2⟩
  | 0xc5 => some ⟨0xc5, .CMP, .Zero, 3⟩
  | 0xd5 => some ⟨0xd5, .CMP, .ZeroX, 4⟩
  | 0xcd => some ⟨0xcd, .CMP, .Absolute, 4⟩
  | 0xdd => some ⟨0xdd, .CMP, .AbsoluteX, 4⟩
  | 0xd9 => some ⟨0xd9, .CMP, .AbsoluteY, 4⟩
  | 0xc1 => some ⟨0xc1, .CMP, .IndirectX, 6⟩
  | 0xd1 => some ⟨0xd1, .CMP, .IndirectY, 5⟩
  | 0xe0 => some ⟨0xe0, .CPX, .Immediate, 2⟩
  | 0xe4 => some ⟨0xe4, .CPX, .Zero, 3⟩
  | 0xec => some ⟨0xec, .CPX, .Absolute, 4⟩
  | 0xc0 => some ⟨0xc0, .CPY, .Immediate, 2⟩
  | 0xc4 => some ⟨0xc4, .CPY, .Zero, 3⟩
  | 0xcc => some ⟨0xcc, .CPY, .Absolute, 4⟩
  | 0xc6 => some ⟨0xc6, .DEC, .Zero, 5⟩
  | 0xd6 => some ⟨0xd6, .DEC, .ZeroX, 6⟩
  | 0xce => some ⟨0xce, .DEC, .Absolute, 6⟩
  | 0xde => some ⟨0xde, .DEC, .AbsoluteX, 7⟩
  | 0x49 => some ⟨0x49, .EOR, .Immediate, 2⟩
  | 0x45 => some ⟨0x45, .EOR, .Zero, 3⟩
  | 0x55 => some ⟨0x55, .EOR, .ZeroX, 4⟩
  | 0x4d => some ⟨0x4d, .EOR, .Absolute, 4⟩
  | 0x5d => some ⟨0x5d, .EOR, .AbsoluteX, 4⟩
  | 0x59 => some ⟨0x59, .EOR, .AbsoluteY, 4⟩
  | 0x41 => some ⟨0x41, .EOR, .IndirectX, 6⟩
  | 0x51 => some ⟨0x51, .EOR, .IndirectY, 5⟩
  | 0x18 => some ⟨0x18, .CLC, .Implied, 2⟩
  | 0x38 => some ⟨0x38, .SEC, .Implied, 2⟩
  | 0x58 => some ⟨0x58, .CLI, .Implied, 2⟩
  | 0x78 => some ⟨0x78, .SEI, .Implied, 2⟩
  | 0xb8 => some ⟨0xb8, .CLV, .Implied, 2⟩
  | 0xd8 => some ⟨0xd8, .CLD, .Implied, 2⟩
  | 0xf8 => some ⟨0xf8, .SED, .Implied, 2⟩
  | 0xe6 => some ⟨0xe6, .INC, .Zero, 5⟩
  | 0xf6 => some ⟨0xf6, .INC, .ZeroX, 6⟩
  | 0xee => some ⟨0xee, .INC, .Absolute, 6⟩
  | 0xfe => some ⟨0xfe, .INC, .AbsoluteX, 7⟩
  | 0x4c => some ⟨0x4c, .JMP, .Absolute, 3⟩
  | 0x6c => some ⟨0x6c, .JMP, .Indirect, 5⟩
  | 0x20 => some ⟨0x20, .JSR, .Absolute, 6⟩
  | 0xa9 => some ⟨0xa9, .LDA, .Immediate, 2⟩
  | 0xa5 => some ⟨0xa5, .LDA, .Zero, 3⟩
  | 0xb5 => some ⟨0xb5, .LDA, .ZeroX, 4⟩
  | 0xad => some ⟨0xad, .LDA, .Absolute, 4⟩
  | 0xbd => some ⟨0xbd, .LDA, .AbsoluteX, 4⟩
  | 0xb9 => some ⟨0xb9, .LDA, .AbsoluteY, 4⟩
  | 0xa1 => some ⟨0xa1, .LDA, .IndirectX, 6⟩
  | 0xb1 => some ⟨0xb1, .LDA, .IndirectY, 5⟩
  | 0xa2 => some ⟨0xa2, .LDX, .Immediate, 2⟩
  | 0xa6 => some ⟨0xa6, .LDX, .Zero, 3⟩
  | 0xb6 => some ⟨0xb6, .LDX, .ZeroY, 4⟩
  | 0xae => some ⟨0xae, .LDX, .Absolute, 4⟩
  | 0xbe => some ⟨0xbe, .LDX, .AbsoluteY, 4⟩
  | 0xa0 => some ⟨0xa0, .LDY, .Immediate, 2⟩
  | 0xa4 => some ⟨0xa4, .LDY, .Zero, 3⟩
  | 0xb4 => some ⟨0xb4, .LDY, .ZeroX, 4⟩
  | 0xac => some ⟨0xac, .LDY, .Absolute, 4⟩
  | 0xbc => some ⟨0xbc, .LDY, .AbsoluteX, 4⟩
  | 0x4a => some ⟨0x4a, .LSR, .Accumulator, 2⟩
  | 0x46 => some ⟨0x46, .LSR, .Zero, 5⟩
  | 0x56 => some ⟨0x56, .LSR, .ZeroX, 6⟩
  | 0x4e => some ⟨0x4e, .LSR, .Absolute, 6⟩
  | 0x5e => some ⟨0x5e, .LSR, .AbsoluteX, 7⟩
  | 0xea => some ⟨0xea, .NOP, .Implied, 2⟩
  | 0x09 => some ⟨0x09, .ORA, .Immediate, 2⟩
  | 0x05 => some ⟨0x05, .ORA, .Zero, 3⟩
  | 0x15 => some ⟨0x15, .ORA, .ZeroX, 4⟩
  | 0x0d => some ⟨0x0d, .ORA, .Absolute, 4⟩
  | 0x1d => some ⟨0x1d, .ORA, .AbsoluteX, 4⟩
  | 0x19 => some ⟨0x19, .ORA, .AbsoluteY, 4⟩
  | 0x01 => some ⟨0x01, .ORA, .IndirectX, 6⟩
  | 0x11 => some ⟨0x11, .ORA, .IndirectY, 5⟩
  | 0xaa => some ⟨0xaa, .TAX, .Implied, 2⟩
  | 0x8a => some ⟨0x8a, .TXA, .Implied, 2⟩
  | 0xca => some ⟨0xca, .DEX, .Implied, 2⟩
  | 0xe8 => some ⟨0xe8, .INX, .Implied, 2⟩
  | 0xa8 => some ⟨0xa8, .TAY, .Implied, 2⟩
  | 0x98 => some ⟨0x98, .TYA, .Implied, 2⟩
  | 0x88 => some ⟨0x88, .DEY, .Implied, 2⟩
  | 0xc8 => some ⟨0xc8, .INY, .Implied, 2⟩
  | 0x2a => some ⟨0x2a, .ROL, .Accumulator, 2⟩
  | 0x26 => some ⟨0x26, .ROL, .Zero, 5⟩
  | 0x36 => some ⟨0x36, .ROL, .ZeroX, 6⟩
  | 0x2e => some ⟨0x2e, .ROL, .Absolute, 6⟩
  | 0x3e => some ⟨0x3e, .ROL, .AbsoluteX, 7⟩
  | 0x6a => some ⟨0x6a, .ROR, .Accumulator, 2⟩
  | 0x66 => some ⟨0x66, .ROR, .Zero, 5⟩
  | 0x76 => some ⟨0x76, .ROR, .ZeroX, 6⟩
  | 0x6e => some ⟨0x6e, .ROR, .Absolute, 6⟩
  | 0x7e => some ⟨0x7e, .ROR, .AbsoluteX, 7⟩
  | 0x40 => some ⟨0x40, .RTI, .Implied, 6⟩
  | 0x60 => some ⟨0x60, .RTS, .Implied, 6⟩
  | 0xe9 => some ⟨0xe9, .SBC, .Immediate, 2⟩
  | 0xe5 => some ⟨0xe5, .SBC, .Zero, 3⟩
  | 0xf5 => some ⟨0xf5, .SBC, .ZeroX, 4⟩
  | 0xed => some ⟨0xed, .SBC, .Absolute, 4⟩
  | 0xfd => some ⟨0xfd, .SBC, .AbsoluteX, 4⟩
  | 0xf9 => some ⟨0xf9, .SBC, .AbsoluteY, 4⟩
  | 0xe1 => some ⟨0xe1, .SBC, .IndirectX, 6⟩
  | 0xf1 => some ⟨0xf1, .SBC, .IndirectY, 5⟩
  | 0x85 => some ⟨0x85, .STA, .Zero, 3⟩
  | 0x95 => some ⟨0x95, .STA, .ZeroX, 4⟩
  | 0x8d => some ⟨0x8d, .STA, .Absolute, 4⟩
  | 0x9d => some ⟨0x9d, .STA, .AbsoluteX, 5⟩
  | 0x99 => some ⟨0x99, .STA, .AbsoluteY, 5⟩
  | 0x81 => some ⟨0x81, .STA, .IndirectX, 6⟩
  | 0x91 => some ⟨0x91, .STA, .IndirectY, 6⟩
  | 0x9a => some ⟨0x9a, .TXS, .Implied, 2⟩
  | 0xba => some ⟨0xba, .TSX, .Implied, 2⟩
  | 0x48 => some ⟨0x48, .PHA, .Implied, 3⟩
  | 0x68 => some ⟨0x68, .PLA, .Implied, 4⟩
  | 0x08 => some ⟨0x08, .PHP, .Implied, 3⟩
  | 0x28 => some ⟨0x28, .PLP, .Implied, 4⟩
  | 0x86 => some ⟨0x86, .STX, .Zero, 3⟩
  | 0x96 => some ⟨0x96, .STX, .ZeroY, 4⟩
  | 0x8e => some ⟨0x8e, .STX, .Absolute, 4⟩
  | 0x84 => some ⟨0x84, .STY, .Zero, 3⟩
  | 0x94 => some ⟨0x94, .STY, .ZeroX, 4⟩
  | 0x8c => some ⟨0x8c, .STY, .Absolute, 4⟩
  | _ => none

/-- The mnemonic `match` of cpu.rs `execute_instruction`, split out as its own
function (`execute_instruction` below applies it after the table lookup and
the cycle accounting, exactly as in the source). -/
def CPU.dispatch (s : CPU) (i : Instruction) : CPU :=
  match i.mnemonic with
  | .ADC => s.adc i.mode
  | .AND => s.and i.mode
  | .ASL =>
    if i.mode = .Accumulator then
      let msb := s.a &&& 0x80 != 0
      let s := { s with a := (s.a <<< 1) % 256 }
      let s := s.set_flag .Carry msb
      s.update_status s.a
    else
      let t := s.read_address i.mode
      t.1.shift_left t.2
  | .BIT =>
    let address := (s.read_address i.mode).2
    let s := (s.read_address i.mode).1
    let s := s.set_flag .Zero (s.a &&& s.readMem address != 0)
    let s := s.set_flag .Negative (s.readMem address &&& N_FLAG != 0)
    s.set_flag .Overflow (s.readMem address &&& V_FLAG != 0)
  | .BPL => s.branch (!(s.is_set .Negative))
  | .BMI => s.branch (s.is_set .Negative)
  | .BVC => s.branch (!(s.is_set .Overflow))
  | .BVS => s.branch (s.is_set .Overflow)
  | .BCC => s.branch (!(s.is_set .Carry))
  | .BCS => s.branch (s.is_set .Carry)
  | .BNE => s.branch (!(s.is_set .Zero))
  | .BEQ => s.branch (s.is_set .Zero)
  | .BRK =>
    let s := s.set_flag .B true
    let s := { s with pc := (s.pc + 1) % 65536 }
    s.interrupt
  | .CMP =>
    let t := s.read_value i.mode
    t.1.compare t.1.a t.2
  | .CPX =>
    let t := s.read_value i.mode
    t.1.compare t.1.x t.2
  | .CPY =>
    let t := s.read_value i.mode
    t.1.compare t.1.y t.2
  | .DEC =>
    let address := (s.read_address i.mode).2
    let s := (s.read_address i.mode).1
    let s := s.writeMem address ((s.readMem address + 256 - 1) % 256)
    s.update_status (s.readMem address)
  | .EOR =>
    let value := (s.read_value i.mode).2
    let s := (s.read_value i.mode).1
    let s := { s with a := s.a ^^^ value }
    s.update_status s.a
  | .CLC => s.set_flag .Carry false
  | .SEC => s.set_flag .Carry true
  | .CLI => s.set_flag .Interrupt false
  | .SEI => s.set_flag .Interrupt true
  | .CLV => s.set_flag .Overflow false
  | .CLD => s.set_flag .Decimal false
  | .SED => s.set_flag .Decimal true
  | .INC =>
    let address := (s.read_address i.mode).2
    let s := (s.read_address i.mode).1
    let s := s.writeMem address ((s.readMem address + 1) % 256)
    s.update_status (s.readMem address)
  | .JMP =>
    if i.mode = .Absolute then
      let t := s.read_absolute_address
      { t.1 with pc := t.2 }
    else
      let t := s.read_indirect_address
      { t.1 with pc := t.2 }
  | .JSR => s.jsr
  | .LDA =>
    let value := (s.read_value i.mode).2
    let s := (s.read_value i.mode).1
    let s := { s with a := value }
    s.update_status s.a
  | .LDX =>
    let value := (s.read_value i.mode).2
    let s := (s.read_value i.mode).1
    let s := { s with x := value }
    s.update_status s.x
  | .LDY =>
    let value := (s.read_value i.mode).2
    let s := (s.read_value i.mode).1
    let s := { s with y := value }
    s.update_status s.y
  | .LSR =>
    if i.mode = .Accumulator then
      let lsb := s.a &&& 0x01 != 0
      let s := { s with a := s.a >>> 1 }
      let s := s.set_flag .Carry lsb
      s.update_status s.a
    else
      let t := s.read_address i.mode
      t.1.shift_right t.2
  | .NOP =>
    if i.mode ≠ .Implied then (s.read_value i.mode).1 else s
  | .ORA =>
    let value := (s.read_value i.mode).2
    let s := (s.read_value i.mode).1
    let s := { s with a := s.a ||| value }
    s.update_status s.a
  | .TAX =>
    let s := { s with x := s.a }
    s.update_status s.x
  | .TXA =>
    let s := { s with a := s.x }
    s.update_status s.a
  | .DEX =>
    let s := { s with x := (s.x + 256 - 1) % 256 }
    s.update_status s.x
  | .INX =>
    let s := { s with x := (s.x + 1) % 256 }
    s.update_status s.x
  | .TAY =>
    let s := { s with y := s.a }
    s.update_status s.y
  | .TYA =>
    let s := { s with a := s.y }
    s.update_status s.a
  | .DEY =>
    let s := { s with y := (s.y + 256 - 1) % 256 }
    s.update_status s.y
  | .INY =>
    let s := { s with y := (s.y + 1) % 256 }
    s.update_status s.y
  | .ROL =>
    if i.mode = .Accumulator then
      let c := s.is_set .Carry
      let s := s.set_flag .Carry (s.a &&& 0x80 != 0)
      let s := { s with a := (s.a <<< 1) % 256 }
      let s := { s with a := s.a ||| (if c then 1 else 0) }
      s.update_status s.a
    else
      let t := s.read_address i.mode
      t.1.rotate_left t.2
  | .ROR =>
    if i.mode = .Accumulator then
      let c := s.is_set .Carry
      let s := s.set_flag .Carry (s.a &&& 0x01 != 0)
      let s := { s with a := s.a >>> 1 }
      let s := { s with a := s.a ||| (if c then 0x80 else 0) }
      s.update_status s.a
    else
      let t := s.read_address i.mode
      t.1.rotate_right t.2
  | .RTI => s.ret false
  | .RTS => s.ret true
  | .SBC => s.sbc i.mode
  | .STA => s.store s.a i.mode
  | .TXS =>
    let s := { s with sp := s.x }
    s.update_status s.sp
  | .TSX =>
    let s := { s with x := s.sp }
    s.update_status s.x
  | .PHA => s.push s.a
  | .PLA =>
    let value := (s.pop).2
    let s := (s.pop).1
    let s := { s with a := value }
    s.update_status s.a
  | .PHP => s.push s.status
  | .PLP =>
    let value := (s.pop).2
    let s := (s.pop).1
    { s with status := value }
  | .STX => s.store s.x i.mode
  | .STY => s.store s.y i.mode
  | .XAA => { s with running := false }
  | .LAX => { s with running := false }

/-- cpu.rs `execute_instruction`: if the opcode has no table entry the CPU is
stopped (`running = false`); otherwise the instruction's cycle cost is added
and the mnemonic is dispatched. -/
def CPU.execute_instruction (s : CPU) (opcode : Nat) : CPU :=
  match INSTRUCTIONS opcode with
  | none => { s with running := false }
  | some i => ({ s with cycles := s.cycles + i.time } : CPU).dispatch i

/-- cpu.rs `is_running`. -/
def CPU.is_running (s : CPU) : Bool := s.running

/-- cpu.rs `load_vector`: writes `value` little-endian at `vector`. -/
def CPU.load_vector (s : CPU) (vector value : Nat) : CPU :=
  let s := s.writeMem vector (value &&& 0xFF)
  s.writeMem (vector + 1) (value >>> 8)

/-- cpu.rs `step`: fetch the opcode at the pc, advance the pc by one with
`overflowing_add`, execute. -/
def CPU.step (s : CPU) : CPU :=
  let instruction := s.readMem s.pc
  let s := { s with pc := (s.pc + 1) % 65536 }
  s.execute_instruction instruction

/-- cpu.rs `reset`: point the pc at the reset vector, read the start address
from there, jump to it, mark running, set the stack pointer to 0xFF. -/
def CPU.reset (s : CPU) : CPU :=
  let s := { s with pc := RESET_VECTOR }
  let start_address := (s.read_absolute_address).2
  let s := (s.read_absolute_address).1
  let s := { s with pc := start_address }
  { s with running := true, sp := 0xFF }

/-! ### Flag register toolkit -/

theorem get_flag_constant_eq_two_pow (f : Flag) : get_flag_constant f = 2 ^ f.bit := by
  cases f <;> rfl

theorem Flag.bit_lt_eight (f : Flag) : f.bit < 8 := by
  cases f <;> decide

theorem Flag.bit_inj {f g : Flag} (h : f.bit = g.bit) : f = g := by
  cases f <;> cases g <;> first | rfl | (exact absurd h (by decide))

theorem testBit_255 (j : Nat) : Nat.testBit 255 j = decide (j < 8) := by
  rw [show (255 : Nat) = 2 ^ 8 - 1 from rfl, Nat.testBit_two_pow_sub_one]

/-- The status-register formula of cpu.rs `set_flag`, at the level of the raw
status byte. -/
def set_flag_status (st : Nat) (f : Flag) (v : Bool) : Nat :=
  (st &&& (255 ^^^ get_flag_constant f)) ||| (if v then get_flag_constant f else 0)

/-- The status-register formula of cpu.rs `is_set`, at the level of the raw
status byte. -/
def statusFlag (st : Nat) (f : Flag) : Bool :=
  st &&& get_flag_constant f != 0

@[simp] theorem CPU.is_set_eq (s : CPU) (f : Flag) :
    s.is_set f = statusFlag s.status f := rfl

@[simp] theorem CPU.set_flag_status_proj (s : CPU) (f : Flag) (v : Bool) :
    (s.set_flag f v).status = set_flag_status s.status f v := rfl

theorem set_flag_status_testBit (st : Nat) (f : Flag) (v : Bool) (j : Nat) (hj : j < 8) :
    (set_flag_status st f v).testBit j = if f.bit = j then v else st.testBit j := by
  unfold set_flag_status
  by_cases hb : f.bit = j
  · subst hb
    cases v <;>
      simp [get_flag_constant_eq_two_pow, Nat.testBit_lor, Nat.testBit_land,
        Nat.testBit_xor, testBit_255, Nat.testBit_two_pow_self, hj]
  · cases v <;>
      simp [get_flag_constant_eq_two_pow, Nat.testBit_lor, Nat.testBit_land,
        Nat.testBit_xor, testBit_255, Nat.testBit_two_pow_of_ne hb, hj, hb]

theorem statusFlag_eq_testBit (st : Nat) (f : Flag) :
    statusFlag st f = st.testBit f.bit := by
  unfold statusFlag
  rw [get_flag_constant_eq_two_pow, Nat.and_two_pow]
  cases h : st.testBit f.bit
  · simp
  · simp [(Nat.two_pow_pos f.bit).ne']

/-- How a flag reads through `set_flag`: the written flag returns `v`, every
other flag is untouched. -/
@[simp] theorem statusFlag_set_flag_status (st : Nat) (f : Flag) (v : Bool) (g : Flag) :
    statusFlag (set_flag_status st f v) g = if f = g then v else statusFlag st g := by
  rw [statusFlag_eq_testBit, statusFlag_eq_testBit,
      set_flag_status_testBit st f v g.bit g.bit_lt_eight]
  by_cases h : f = g
  · subst h; simp
  · have hb : f.bit ≠ g.bit := fun hb => h (Flag.bit_inj hb)
    simp [h, hb]

/-- The CPU-level restatement: `is_set` through `set_flag`. -/
theorem CPU.is_set_set_flag (s : CPU) (f g : Flag) (v : Bool) :
    (s.set_flag f v).is_set g = if f = g then v else s.is_set g := by
  simp

/-! ### Projection lemmas: which fields each primitive leaves unchanged -/

@[simp] theorem CPU.set_flag_running (s : CPU) (f : Flag) (v : Bool) :
    (s.set_flag f v).running = s.running := rfl

@[simp] theorem CPU.set_flag_pc (s : CPU) (f : Flag) (v : Bool) :
    (s.set_flag f v).pc = s.pc := rfl

@[simp] theorem CPU.set_flag_sp (s : CPU) (f : Flag) (v : Bool) :
    (s.set_flag f v).sp = s.sp := rfl

@[simp] theorem CPU.set_flag_a (s : CPU) (f : Flag) (v : Bool) :
    (s.set_flag f v).a = s.a := rfl

@[simp] theorem CPU.set_flag_x (s : CPU) (f : Flag) (v : Bool) :
    (s.set_flag f v).x = s.x := rfl

@[simp] theorem CPU.set_flag_y (s : CPU) (f : Flag) (v : Bool) :
    (s.set_flag f v).y = s.y := rfl

@[simp] theorem CPU.set_flag_memory (s : CPU) (f : Flag) (v : Bool) :
    (s.set_flag f v).memory = s.memory := rfl

@[simp] theorem CPU.set_flag_readMem (s : CPU) (f : Flag) (v : Bool) (address : Nat) :
    (s.set_flag f v).readMem address = s.readMem address := rfl

@[simp] theorem CPU.writeMem_running (s : CPU) (address value : Nat) :
    (s.writeMem address value).running = s.running := rfl

@[simp] theorem CPU.writeMem_pc (s : CPU) (address value : Nat) :
    (s.writeMem address value).pc = s.pc := rfl

@[simp] theorem CPU.writeMem_sp (s : CPU) (address value : Nat) :
    (s.writeMem address value).sp = s.sp := rfl

@[simp] theorem CPU.writeMem_a (s : CPU) (address value : Nat) :
    (s.writeMem address value).a = s.a := rfl

@[simp] theorem CPU.writeMem_status (s : CPU) (address value : Nat) :
    (s.writeMem address value).status = s.status := rfl

@[simp] theorem CPU.writeMem_is_set (s : CPU) (address value : Nat) (f : Flag) :
    (s.writeMem address value).is_set f = s.is_set f := rfl

@[simp] theorem CPU.update_status_running (s : CPU) (value : Nat) :
    (s.update_status value).running = s.running := by
  unfold CPU.update_status
  split
  · rfl
  · split <;> rfl

@[simp] theorem CPU.update_status_pc (s : CPU) (value : Nat) :
    (s.update_status value).pc = s.pc := by
  unfold CPU.update_status
  split
  · rfl
  · split <;> rfl

@[simp] theorem CPU.update_status_sp (s : CPU) (value : Nat) :
    (s.update_status value).sp = s.sp := by
  unfold CPU.update_status
  split
  · rfl
  · split <;> rfl

@[simp] theorem CPU.update_status_a (s : CPU) (value : Nat) :
    (s.update_status value).a = s.a := by
  unfold CPU.update_status
  split
  · rfl
  · split <;> rfl

@[simp] theorem CPU.update_status_memory (s : CPU) (value : Nat) :
    (s.update_status value).memory = s.memory := by
  unfold CPU.update_status
  split
  · rfl
  · split <;> rfl

@[simp] theorem CPU.push_running (s : CPU) (value : Nat) :
    (s.push value).running = s.running := rfl

@[simp] theorem CPU.pop_fst_running (s : CPU) :
    (s.pop).1.running = s.running := rfl

@[simp] theorem CPU.read_zp_address_fst_running (s : CPU) (mode : AddressingMode) :
    (s.read_zp_address mode).1.running = s.running := rfl

@[simp] theorem CPU.read_absolute_address_fst_running (s : CPU) :
    (s.read_absolute_address).1.running = s.running := rfl

@[simp] theorem CPU.read_indirect_address_fst_running (s : CPU) :
    (s.read_indirect_address).1.running = s.running := rfl

@[simp] theorem CPU.read_indirect_indexed_address_fst_running (s : CPU) :
    (s.read_indirect_indexed_address).1.running = s.running := rfl

@[simp] theorem CPU.read_indexed_indirect_address_fst_running (s : CPU) :
    (s.read_indexed_indirect_address).1.running = s.running := rfl

@[simp] theorem CPU.read_address_fst_running (s : CPU) (mode : AddressingMode) :
    (s.read_address mode).1.running = s.running := by
  unfold CPU.read_address
  cases mode <;> simp

@[simp] theorem CPU.read_value_fst_running (s : CPU) (mode : AddressingMode) :
    (s.read_value mode).1.running = s.running := by
  unfold CPU.read_value
  cases mode <;> simp

@[simp] theorem CPU.store_running (s : CPU) (value : Nat) (mode : AddressingMode) :
    (s.store value mode).running = s.running := by
  unfold CPU.store
  simp

@[simp] theorem CPU.sbc_running (s : CPU) (mode : AddressingMode) :
    (s.sbc mode).running = s.running := by
  unfold CPU.sbc
  simp [apply_ite CPU.running]

@[simp] theorem CPU.adc_running (s : CPU) (mode : AddressingMode) :
    (s.adc mode).running = s.running := by
  unfold CPU.adc
  simp [apply_ite CPU.running]

@[simp] theorem CPU.and_running (s : CPU) (mode : AddressingMode) :
    (s.and mode).running = s.running := by
  unfold CPU.and
  simp

@[simp] theorem CPU.shift_left_running (s : CPU) (address : Nat) :
    (s.shift_left address).running = s.running := by
  unfold CPU.shift_left
  simp

@[simp] theorem CPU.shift_right_running (s : CPU) (address : Nat) :
    (s.shift_right address).running = s.running := by
  unfold CPU.shift_right
  simp

@[simp] theorem CPU.rotate_left_running (s : CPU) (address : Nat) :
    (s.rotate_left address).running = s.running := by
  unfold CPU.rotate_left
  simp

@[simp] theorem CPU.rotate_right_running (s : CPU) (address : Nat) :
    (s.rotate_right address).running = s.running := by
  unfold CPU.rotate_right
  simp

@[simp] theorem CPU.branch_running (s : CPU) (condition : Bool) :
    (s.branch condition).running = s.running := by
  unfold CPU.branch
  simp [apply_ite CPU.running]

@[simp] theorem CPU.interrupt_running (s : CPU) :
    (s.interrupt).running = s.running := by
  unfold CPU.interrupt
  simp

@[simp] theorem CPU.jsr_running (s : CPU) :
    (s.jsr).running = s.running := by
  unfold CPU.jsr
  simp

@[simp] theorem CPU.ret_running (s : CPU) (is_subroutine : Bool) :
    (s.ret is_subroutine).running = s.running := by
  unfold CPU.ret
  split <;> rfl

@[simp] theorem CPU.compare_running (s : CPU) (left right : Nat) :
    (s.compare left right).running = s.running := rfl

@[simp] theorem CPU.is_set_with_pc (s : CPU) (v : Nat) (f : Flag) :
    ({ s with pc := v } : CPU).is_set f = s.is_set f := rfl

@[simp] theorem CPU.is_set_with_a (s : CPU) (v : Nat) (f : Flag) :
    ({ s with a := v } : CPU).is_set f = s.is_set f := rfl

@[simp] theorem CPU.is_set_with_x (s : CPU) (v : Nat) (f : Flag) :
    ({ s with x := v } : CPU).is_set f = s.is_set f := rfl

@[simp] theorem CPU.is_set_with_y (s : CPU) (v : Nat) (f : Flag) :
    ({ s with y := v } : CPU).is_set f = s.is_set f := rfl

@[simp] theorem CPU.is_set_with_sp (s : CPU) (v : Nat) (f : Flag) :
    ({ s with sp := v } : CPU).is_set f = s.is_set f := rfl

@[simp] theorem CPU.is_set_with_cycles (s : CPU) (v : Nat) (f : Flag) :
    ({ s with cycles := v } : CPU).is_set f = s.is_set f := rfl

@[simp] theorem CPU.readMem_with_pc (s : CPU) (v address : Nat) :
    ({ s with pc := v } : CPU).readMem address = s.readMem address := rfl

@[simp] theorem CPU.readMem_with_a (s : CPU) (v address : Nat) :
    ({ s with a := v } : CPU).readMem address = s.readMem address := rfl

@[simp] theorem CPU.readMem_with_x (s : CPU) (v address : Nat) :
    ({ s with x := v } : CPU).readMem address = s.readMem address := rfl

@[simp] theorem CPU.readMem_with_y (s : CPU) (v address : Nat) :
    ({ s with y := v } : CPU).readMem address = s.readMem address := rfl

@[simp] theorem CPU.readMem_with_sp (s : CPU) (v address : Nat) :
    ({ s with sp := v } : CPU).readMem address = s.readMem address := rfl

@[simp] theorem CPU.readMem_with_cycles (s : CPU) (v address : Nat) :
    ({ s with cycles := v } : CPU).readMem address = s.readMem address := rfl

@[simp] theorem CPU.update_status_readMem (s : CPU) (value address : Nat) :
    (s.update_status value).readMem address = s.readMem address := by
  unfold CPU.readMem
  rw [CPU.update_status_memory]

/-- Reading through a write: the written cell (address taken mod 65536)
returns the written byte, every other cell is unchanged. -/
@[simp] theorem CPU.readMem_writeMem (s : CPU) (address value r : Nat) :
    (s.writeMem address value).readMem r =
      if r % 65536 = address % 65536 then value % 256 else s.readMem r := by
  unfold CPU.readMem CPU.writeMem
  by_cases h : r % 65536 = address % 65536 <;> simp [h, Nat.mod_mod_of_dvd]

/-! ### C1: the indirect-addressing page-boundary behavior -/

/-- A concrete machine state for the indirect resolver: the operand (pointer)
is 0x02FF, and the candidate high-byte cells hold pairwise distinct markers
(0x0200 holds 0x12, 0x0300 holds 0xCD, 0x03FF holds 0xAB). -/
def indirectBugState : CPU :=
  { CPU.default with
    pc := 0x1000,
    memory := fun i =>
      if i = 0x1000 then 0xFF else if i = 0x1001 then 0x02
      else if i = 0x02FF then 0x34 else if i = 0x0200 then 0x12
      else if i = 0x0300 then 0xCD else if i = 0x03FF then 0xAB else 0 }

/-- C1: with pointer 0x02FF the source fetches the final address's high byte
from 0x03FF (it increments the pointer's HIGH byte and keeps the low byte
0xFF), not from 0x0200 as the claim -- and the source's own doc comment --
require (which would give 0x1234), and not from 0x0300 either. -/
theorem c1_indirect_high_byte_comes_from_wrong_cell :
    (indirectBugState.read_indirect_address).2 = 0xAB34 ∧
    (indirectBugState.read_indirect_address).2 ≠ 0x1234 := by
  constructor
  · decide
  · decide

/-! ### C2: `update_status` and the Negative flag -/

/-- A state whose Negative flag is set (status = N_FLAG) and all else default. -/
def negStickState : CPU := { CPU.default with status := N_FLAG }

/-- C2: `update_status 0x01` on a state with Negative set leaves Negative SET,
although 0x01 < 0x80 -- the nonzero branch of the source only sets Negative
when the value exceeds 127 and never clears it.  (Zero is correctly cleared.) -/
theorem c2_update_status_leaves_negative_set :
    ((negStickState.update_status 0x01).is_set .Negative = true) ∧
    ((negStickState.update_status 0x01).is_set .Zero = false) ∧ (0x01 : Nat) < 0x80 := by
  refine ⟨by decide, by decide, by decide⟩

/-! ### C4: LSR carry on a memory target -/

/-- A state about to execute LSR zero-page (opcode 0x46 already fetched): the
operand byte is 0x10 and the cell 0x10 holds 0x80 (bit 7 set, bit 0 clear). -/
def lsrBugState : CPU :=
  { CPU.default with
    pc := 0x200,
    memory := fun i => if i = 0x200 then 0x10 else if i = 0x10 then 0x80 else 0 }

/-- C4: executing LSR on a memory operand equal to 0x80 sets Carry, although
bit 0 of the pre-shift value is 0 -- `shift_right` masks with 0x80 (bit 7)
instead of 0x01, contradicting the claim and the function's own doc comment.
(The shifted value 0x40 is stored; its bit 7 is indeed zero.) -/
theorem c4_lsr_memory_carry_from_bit7 :
    ((lsrBugState.execute_instruction 0x46).is_set .Carry = true) ∧
    (lsrBugState.readMem 0x10 &&& 0x01 = 0) ∧
    ((lsrBugState.execute_instruction 0x46).readMem 0x10 = 0x40) := by
  refine ⟨by decide, by decide, by decide⟩

/-! ### C5: debug-profile overflow checks on the increment/decrement arms -/

/-- Models the INX arm of cpu.rs (line 723, `self.x += 1;` then
`update_status`) under Rust's debug-profile overflow checking: a `+=` that
overflows the `u8` panics instead of wrapping; `none` models the panic. -/
def CPU.inx_checked (s : CPU) : Option CPU :=
  if s.x + 1 ≤ 255 then
    let s := { s with x := s.x + 1 }
    some (s.update_status s.x)
  else none

/-- Models the DEC arm of cpu.rs (line 619, `self.memory[address] -= 1;`)
under Rust's debug-profile overflow checking: decrementing a 0x00 byte panics
instead of wrapping to 0xFF. -/
def CPU.dec_checked (s : CPU) (address : Nat) : Option CPU :=
  if s.readMem address = 0 then none
  else
    let s := s.writeMem address (s.readMem address - 1)
    some (s.update_status (s.readMem address))

/-- C5: the increment/decrement arms use unchecked `+=`/`-=` (unlike the
`overflowing_add`/`overflowing_sub` used elsewhere in cpu.rs), so under the
debug profile INX with X = 0xFF and DEC of a 0x00 byte trap instead of
wrapping. -/
theorem c5_increment_arms_can_trap :
    CPU.inx_checked { CPU.default with x := 0xFF } = none ∧
    CPU.dec_checked CPU.default 0x10 = none := by
  exact ⟨rfl, rfl⟩

/-! ### C9: the reset sequence -/

/-- C9: for every state whose memory holds 0x34 at 0xFFFC and 0x12 at 0xFFFD,
`reset` sets the program counter to 0x1234, the stack pointer to 0xFF, and
marks the CPU running. -/
theorem c9_reset_sequence (s : CPU) (h1 : s.memory 0xFFFC = 0x34)
    (h2 : s.memory 0xFFFD = 0x12) :
    (s.reset).pc = 0x1234 ∧ (s.reset).sp = 0xFF ∧ (s.reset).running = true := by
  unfold CPU.reset CPU.read_absolute_address RESET_VECTOR CPU.readMem
  norm_num [h1, h2]
  decide

/-- C9 witness: programming the reset vector with 0x1234 through `load_vector`
(which stores it little-endian: 0x34 then 0x12) and resetting yields
pc = 0x1234, sp = 0xFF, running. -/
theorem c9_reset_sequence_witness :
    (((CPU.default.load_vector RESET_VECTOR 0x1234).reset).pc = 0x1234) ∧
    (((CPU.default.load_vector RESET_VECTOR 0x1234).reset).sp = 0xFF) ∧
    (((CPU.default.load_vector RESET_VECTOR 0x1234).reset).running = true) :=
  c9_reset_sequence (CPU.default.load_vector RESET_VECTOR 0x1234) (by decide) (by decide)

/-! ### C3: the ADC signed-overflow cases -/

/-- C3 (amended) : with Carry clear, immediate ADC of 0x50 into accumulator
0x50 sets Overflow and clears Carry; immediate ADC of 0x90 into accumulator
0xD0 sets Carry AND LEAVES OVERFLOW SET (the 9-bit result 0x160 lies inside
the 0x80..0x17F band -- the claim's "clears Overflow" is false); and
immediate ADC of 0xD0 into accumulator 0x50 leaves Overflow clear whatever
the incoming Carry. -/
theorem c3_adc_signed_overflow_cases :
    (∀ s : CPU, s.a = 0x50 → s.is_set .Carry = false → s.readMem s.pc = 0x50 →
      (s.adc .Immediate).is_set .Overflow = true ∧
      (s.adc .Immediate).is_set .Carry = false) ∧
    (∀ s : CPU, s.a = 0xD0 → s.is_set .Carry = false → s.readMem s.pc = 0x90 →
      (s.adc .Immediate).is_set .Carry = true ∧
      (s.adc .Immediate).is_set .Overflow = true) ∧
    (∀ s : CPU, s.a = 0x50 → s.readMem s.pc = 0xD0 →
      (s.adc .Immediate).is_set .Overflow = false) := by
  refine ⟨?_, ?_, ?_⟩
  · intro s h1 h2 h3
    unfold CPU.adc CPU.read_value
    simp only [CPU.is_set_eq] at h2
    simp [h1, h2, h3, CPU.update_status]
  · intro s h1 h2 h3
    unfold CPU.adc CPU.read_value
    simp only [CPU.is_set_eq] at h2
    simp [h1, h2, h3, CPU.update_status, show (64 : Nat) &&& 128 = 0 from rfl]
  · intro s h1 h3
    unfold CPU.adc CPU.read_value
    cases hc : statusFlag s.status Flag.Carry <;>
      simp [h1, h3, hc, CPU.update_status]

/-- A state about to execute the operand fetch of ADC #0x90 with accumulator
0xD0 and all flags clear. -/
def adcCase2State : CPU :=
  { CPU.default with
    a := 0xD0,
    pc := 0x300,
    memory := fun i => if i = 0x300 then 0x90 else 0 }

/-- C3 counterexample: ADC of 0x90 into accumulator 0xD0 with Carry clear
leaves Overflow SET (together with Carry), where the claim demands Overflow
clear. -/
theorem c3_counterexample_overflow_not_cleared :
    ((adcCase2State.adc .Immediate).is_set .Carry = true) ∧
    ((adcCase2State.adc .Immediate).is_set .Overflow = true) := by
  refine ⟨by decide, by decide⟩

/-- A state about to execute the operand fetch of ADC #0x50 with accumulator
0x50 and all flags clear. -/
def adcCase1State : CPU :=
  { CPU.default with
    a := 0x50,
    pc := 0x300,
    memory := fun i => if i = 0x300 then 0x50 else 0 }

/-- A state about to execute the operand fetch of ADC #0xD0 with accumulator
0x50 and Carry set. -/
def adcCase3State : CPU :=
  { CPU.default with
    a := 0x50,
    pc := 0x300,
    status := C_FLAG,
    memory := fun i => if i = 0x300 then 0xD0 else 0 }

/-- C3 witness: the three amended cases evaluated at concrete states. -/
theorem c3_adc_signed_overflow_cases_witness :
    (((adcCase1State.adc .Immediate).is_set .Overflow = true) ∧
     ((adcCase1State.adc .Immediate).is_set .Carry = false)) ∧
    (((adcCase2State.adc .Immediate).is_set .Carry = true) ∧
     ((adcCase2State.adc .Immediate).is_set .Overflow = true)) ∧
    ((adcCase3State.adc .Immediate).is_set .Overflow = false) :=
  ⟨c3_adc_signed_overflow_cases.1 _ (by decide) (by decide) (by decide),
   c3_adc_signed_overflow_cases.2.1 _ (by decide) (by decide) (by decide),
   c3_adc_signed_overflow_cases.2.2 _ (by decide) (by decide)⟩

/-! ### Arithmetic helpers for bytes and 16-bit words -/

theorem CPU.readMem_lt (s : CPU) (address : Nat) : s.readMem address < 256 :=
  Nat.mod_lt _ (by norm_num)

/-- A little-endian word assembled from two bytes, as a sum. -/
theorem lor_shiftLeft_eq_add (lo hi : Nat) (hlo : lo < 256) :
    lo ||| (hi <<< 8) = 256 * hi + lo := by
  rw [Nat.lor_comm, Nat.shiftLeft_eq, Nat.mul_comm hi (2 ^ 8)]
  exact (Nat.mul_add_lt_is_or hlo hi).symm

/-- A little-endian word assembled from two bytes is a 16-bit value. -/
theorem lor_shiftLeft_lt (lo hi : Nat) (hlo : lo < 256) (hhi : hi < 256) :
    lo ||| (hi <<< 8) < 65536 := by
  rw [lor_shiftLeft_eq_add lo hi hlo]
  omega

/-! ### C10: the BIT instruction -/

/-- C10: executing BIT through either of its two table entries (zero-page
opcode 0x24, absolute opcode 0x2C) sets Zero iff `a AND operand` is NONZERO,
copies bit 7 of the operand byte into Negative and bit 6 into Overflow, and
leaves the accumulator and all of memory unchanged. -/
theorem c10_bit_flags (s : CPU) (opcode : Nat)
    (h : opcode = 0x24 ∨ opcode = 0x2C) :
    ∃ address : Nat,
      ((opcode = 0x24 ∧ address = s.readMem s.pc) ∨
       (opcode = 0x2C ∧ address = s.readMem s.pc ||| (s.readMem (s.pc + 1) <<< 8))) ∧
      (s.execute_instruction opcode).memory = s.memory ∧
      (s.execute_instruction opcode).a = s.a ∧
      (s.execute_instruction opcode).is_set .Zero = (s.a &&& s.readMem address != 0) ∧
      (s.execute_instruction opcode).is_set .Negative = (s.readMem address &&& 0x80 != 0) ∧
      (s.execute_instruction opcode).is_set .Overflow = (s.readMem address &&& 0x40 != 0) := by
  rcases h with h | h <;> subst h
  · refine ⟨s.readMem s.pc, Or.inl ⟨rfl, rfl⟩, ?_⟩
    unfold CPU.execute_instruction
    rw [show INSTRUCTIONS 0x24 = some ⟨0x24, .BIT, .Zero, 3⟩ from rfl]
    simp [CPU.dispatch, CPU.read_address, CPU.read_zp_address, N_FLAG, V_FLAG, CPU.readMem,
      Nat.mod_eq_of_lt (s.readMem_lt s.pc)]
  · refine ⟨s.readMem s.pc ||| (s.readMem (s.pc + 1) <<< 8), Or.inr ⟨rfl, rfl⟩, ?_⟩
    unfold CPU.execute_instruction
    rw [show INSTRUCTIONS 0x2C = some ⟨0x2C, .BIT, .Absolute, 4⟩ from rfl]
    simp [CPU.dispatch, CPU.read_address, CPU.read_absolute_address, N_FLAG, V_FLAG, CPU.readMem,
      Nat.mod_eq_of_lt (lor_shiftLeft_lt _ _ (s.readMem_lt s.pc) (s.readMem_lt (s.pc + 1)))]

/-- A state about to execute BIT zero-page: accumulator 0x0F, operand cell
0x20 holding 0xCF (bits 7 and 6 set, low nibble overlapping the accumulator). -/
def bitState : CPU :=
  { CPU.default with
    a := 0x0F,
    pc := 0x400,
    memory := fun i => if i = 0x400 then 0x24 else if i = 0x401 then 0x20
      else if i = 0x20 then 0xCF else 0 }

/-- C10 witness: the BIT zero-page case evaluated on a concrete state
(operand 0xCF, accumulator 0x0F: Zero is SET because the AND is nonzero,
Negative and Overflow copy bits 7 and 6). -/
theorem c10_bit_flags_witness :
    ∃ address : Nat,
      ((0x24 = 0x24 ∧ address = bitState.readMem bitState.pc) ∨
       (0x24 = 0x2C ∧ address = bitState.readMem bitState.pc |||
          (bitState.readMem (bitState.pc + 1) <<< 8))) ∧
      (bitState.execute_instruction 0x24).memory = bitState.memory ∧
      (bitState.execute_instruction 0x24).a = bitState.a ∧
      (bitState.execute_instruction 0x24).is_set .Zero =
        (bitState.a &&& bitState.readMem address != 0) ∧
      (bitState.execute_instruction 0x24).is_set .Negative =
        (bitState.readMem address &&& 0x80 != 0) ∧
      (bitState.execute_instruction 0x24).is_set .Overflow =
        (bitState.readMem address &&& 0x40 != 0) :=
  c10_bit_flags bitState 0x24 (Or.inl rfl)

/-! ### C7: stack round trip and wraparound -/

/-- Iterated `push` of the same byte (for the more-than-256-pushes wraparound
part of the stack claim). -/
def CPU.pushRepeat (s : CPU) (value : Nat) : Nat → CPU
  | 0 => s
  | n + 1 => (s.pushRepeat value n).push value

/-- C7: pushing any byte and popping returns that byte and restores the stack
pointer, for every starting stack pointer (including the wrapping sp = 0
case); and any number of pushes -- in particular more than 256 -- is a total
operation that only moves the stack pointer by the wrapping formula
`(sp + 255 * n) % 256` (so 256 pushes return it to its start). -/
theorem c7_stack_round_trip :
    (∀ (s : CPU) (v : Nat), s.sp < 256 → v < 256 →
      ((s.push v).pop).2 = v ∧ ((s.push v).pop).1.sp = s.sp) ∧
    (∀ (s : CPU) (v n : Nat), s.sp < 256 →
      (s.pushRepeat v n).sp = (s.sp + 255 * n) % 256) := by
  constructor
  · intro s v hsp hv
    have hsp2 : (s.sp + 255 + 1) % 256 = s.sp := by omega
    unfold CPU.push CPU.pop
    simp [CPU.readMem, CPU.writeMem, hsp2, Nat.mod_eq_of_lt hv]
  · intro s v n hsp
    induction n with
    | zero => simp [CPU.pushRepeat, Nat.mod_eq_of_lt hsp]
    | succ n ih =>
      unfold CPU.pushRepeat CPU.push
      simp only [CPU.writeMem_sp, ih]
      omega

/-- C7 witness: a concrete round trip starting at sp = 0 (the push wraps the
stack pointer to 0xFF and the pop restores 0), and 257 pushes moving sp by
`255 * 257 % 256`. -/
theorem c7_stack_round_trip_witness :
    (((({ CPU.default with sp := 0 } : CPU).push 0xAB).pop).2 = 0xAB ∧
     ((({ CPU.default with sp := 0 } : CPU).push 0xAB).pop).1.sp = 0) ∧
    (({ CPU.default with sp := 0 } : CPU).pushRepeat 0xAB 257).sp =
      (0 + 255 * 257) % 256 :=
  ⟨c7_stack_round_trip.1 { CPU.default with sp := 0 } 0xAB (by decide) (by decide),
   c7_stack_round_trip.2 { CPU.default with sp := 0 } 0xAB 257 (by decide)⟩

/-! ### C6: JSR/RTS round trip -/

theorem and_255_eq_mod (x : Nat) : x &&& 255 = x % 256 := by
  rw [show (255 : Nat) = 2 ^ 8 - 1 from rfl, Nat.and_pow_two_sub_one_eq_mod]

/-- A big-endian reassembly `(hi <<< 8) ||| lo` of two bytes, as a sum. -/
theorem shiftLeft_lor_eq_add (hi lo : Nat) (hlo : lo < 256) :
    (hi <<< 8) ||| lo = 256 * hi + lo := by
  rw [Nat.shiftLeft_eq, Nat.mul_comm hi (2 ^ 8)]
  exact (Nat.mul_add_lt_is_or hlo hi).symm

/-- Splitting a 16-bit value into its bytes and reassembling it is the
identity. -/
theorem split_word_eq (r : Nat) (hr : r < 65536) :
    ((((r >>> 8) &&& 255) <<< 8) ||| (r &&& 255)) = r := by
  rw [and_255_eq_mod, and_255_eq_mod, Nat.shiftRight_eq_div_pow]
  have hd : r / 2 ^ 8 % 256 = r / 256 := by
    have : r / 256 < 256 := by omega
    simpa using Nat.mod_eq_of_lt this
  rw [hd, shiftLeft_lor_eq_add _ _ (Nat.mod_lt _ (by norm_num))]
  omega

theorem mod256_lt (x : Nat) : x % 256 < 256 := Nat.mod_lt _ (by norm_num)

/-- C6: a JSR instruction (opcode 0x20) followed by executing the RTS sitting
at the jump target leaves the program counter at the byte immediately after
the 3-byte JSR. -/
theorem lor_256_eq_add (a : Nat) (ha : a < 256) : 256 ||| a = 256 + a := by
  have hb : a < 2 ^ 8 := by simpa using ha
  have h := Nat.mul_add_lt_is_or hb 1
  simpa using h.symm

/-- Dispatching opcode 0x20 runs the JSR handler after adding its 6 cycles. -/
theorem CPU.execute_instruction_jsr (s : CPU) :
    s.execute_instruction 0x20 = ({ s with cycles := s.cycles + 6 } : CPU).jsr := rfl

/-- Dispatching opcode 0x60 runs the RTS handler after adding its 6 cycles. -/
theorem CPU.execute_instruction_rts (s : CPU) :
    s.execute_instruction 0x60 = ({ s with cycles := s.cycles + 6 } : CPU).ret true := rfl


/-- C6: a JSR instruction (opcode 0x20) followed by executing the RTS sitting
at the jump target leaves the program counter at the byte immediately after
the 3-byte JSR. -/
theorem c6_jsr_rts_round_trip (s : CPU) (hsp : s.sp < 256)
    (h1 : s.readMem s.pc = 0x20)
    (h2 : (s.step).readMem (s.step).pc = 0x60) :
    ((s.step).step).pc = (s.pc + 3) % 65536 := by
  unfold CPU.step at h2 ⊢
  simp only [h1, CPU.execute_instruction_jsr] at h2 ⊢
  rw [h2]
  rw [CPU.execute_instruction_rts]
  unfold CPU.jsr CPU.ret CPU.pop CPU.push CPU.read_absolute_address
  simp [CPU.readMem, CPU.writeMem]
  have ha : (s.sp + 255 + 255 + 1) % 256 = (s.sp + 255) % 256 := by omega
  have hb : (s.sp + 255 + 255 + 1 + 1) % 256 = s.sp := by omega
  have h255lt : (s.sp + 255) % 256 < 256 := Nat.mod_lt _ (by norm_num)
  have hm1 : (256 + s.sp) % 65536 = 256 + s.sp := Nat.mod_eq_of_lt (by omega)
  have hm2 : (256 + (s.sp + 255) % 256) % 65536 = 256 + (s.sp + 255) % 256 :=
    Nat.mod_eq_of_lt (by omega)
  have hne : (256 : Nat) + s.sp ≠ 256 + (s.sp + 255) % 256 := by omega
  simp only [ha, hb, show (STACK_PAGE <<< 8 : Nat) = 256 from rfl,
    lor_256_eq_add s.sp hsp, lor_256_eq_add _ h255lt, hm1, hm2]
  simp [hne]
  simp only [and_255_eq_mod, Nat.shiftRight_eq_div_pow, mod256_lt, shiftLeft_lor_eq_add]
  norm_num
  omega

/-- A state containing a JSR at 0x8000 to target 0x9000, an RTS at 0x9000, and
a valid stack pointer. -/
def jsrState : CPU :=
  { CPU.default with
    pc := 0x8000,
    sp := 0xFF,
    memory := fun i =>
      if i = 0x8000 then 0x20 else if i = 0x8001 then 0x00
      else if i = 0x8002 then 0x90 else if i = 0x9000 then 0x60 else 0 }

/-- C6 witness: the JSR at 0x8000 and the RTS at its target return the pc to
0x8003. -/
theorem c6_jsr_rts_round_trip_witness :
    ((jsrState.step).step).pc = (0x8000 + 3) % 65536 :=
  c6_jsr_rts_round_trip jsrState (by decide) (by decide) (by decide)

/-! ### C8: the only transitions into the halted state -/

/-- A XAA or LAX instruction descriptor makes the dispatch stop the CPU. -/
theorem CPU.dispatch_kill (s : CPU) (i : Instruction)
    (hm : i.mnemonic = Mnemonic.XAA ∨ i.mnemonic = Mnemonic.LAX) :
    (s.dispatch i).running = false := by
  unfold CPU.dispatch
  rcases hm with hm | hm <;> rw [hm]

/-- Every dispatch arm other than XAA/LAX leaves `running` unchanged. -/
theorem CPU.dispatch_running (s : CPU) (i : Instruction)
    (hx : i.mnemonic ≠ .XAA) (hl : i.mnemonic ≠ .LAX) :
    (s.dispatch i).running = s.running := by
  unfold CPU.dispatch
  cases hm : i.mnemonic <;>
    first
      | exact absurd hm hx
      | exact absurd hm hl
      | simp [apply_ite CPU.running]

/-- `step` as the fetch/advance/execute composition. -/
theorem CPU.step_eq (s : CPU) :
    s.step = ({ s with pc := (s.pc + 1) % 65536 } : CPU).execute_instruction
      (s.readMem s.pc) := rfl

theorem CPU.execute_instruction_eq_none (s : CPU) (opcode : Nat)
    (h : INSTRUCTIONS opcode = none) :
    s.execute_instruction opcode = { s with running := false } := by
  unfold CPU.execute_instruction
  rw [h]

theorem CPU.execute_instruction_eq_some (s : CPU) (opcode : Nat) (i : Instruction)
    (h : INSTRUCTIONS opcode = some i) :
    s.execute_instruction opcode =
      ({ s with cycles := s.cycles + i.time } : CPU).dispatch i := by
  unfold CPU.execute_instruction
  rw [h]

/-- C8: from a running state, `step` moves to the halted state exactly when
the fetched opcode has no entry in the instruction table or maps to one of the
intentionally-unemulated undocumented mnemonics XAA/LAX; `step` is a total
function, so no other error crosses the stepping boundary. -/
theorem c8_halt_reached_only_two_ways (s : CPU) (h : s.running = true) :
    (s.step).running = false ↔
      (INSTRUCTIONS (s.readMem s.pc) = none ∨
       ∃ i, INSTRUCTIONS (s.readMem s.pc) = some i ∧
         (i.mnemonic = .XAA ∨ i.mnemonic = .LAX)) := by
  cases hI : INSTRUCTIONS (s.readMem s.pc) with
  | none =>
    rw [CPU.step_eq, CPU.execute_instruction_eq_none _ _ hI]
    simp
  | some i =>
    rw [CPU.step_eq, CPU.execute_instruction_eq_some _ _ _ hI]
    by_cases hm : i.mnemonic = Mnemonic.XAA ∨ i.mnemonic = Mnemonic.LAX
    · simp [CPU.dispatch_kill _ _ hm, hI, hm]
    · rw [not_or] at hm
      rw [CPU.dispatch_running _ _ hm.1 hm.2]
      simp [h, hI, hm.1, hm.2]

/-- A running state whose whole memory is filled with 0x02, an opcode absent
from the instruction table. -/
def haltState : CPU :=
  { CPU.default with running := true, memory := fun _ => 0x02 }

/-- C8 witness: stepping `haltState` halts, and the equivalence instantiates. -/
theorem c8_halt_reached_only_two_ways_witness :
    (haltState.step).running = false ↔
      (INSTRUCTIONS (haltState.readMem haltState.pc) = none ∨
       ∃ i, INSTRUCTIONS (haltState.readMem haltState.pc) = some i ∧
         (i.mnemonic = .XAA ∨ i.mnemonic = .LAX)) :=
  c8_halt_reached_only_two_ways haltState rfl

end NES
